import Mathlib

/-!
Verification development for the hydro-suite repository.

The file shallowly embeds the parts of the code the claims concern:
* the composite-CN and composite-C area-weighted aggregators
  (`src/Components/CN/composite_cn_calculator.py`,
   `src/Components/Rational_C/composite_C_calculator.py`);
* the multi-method time-of-concentration engine
  (`.../TC_Multiple_Methods_v3/tc_processing.py`);
* the standalone NRCS TC calculator
  (`src/TC_NRCS_Stand_Alone/tc_calculator_v6_final.py`).

Python floats are modelled as exact rationals where the code only uses
field operations, and as real numbers where `math.sqrt` / `**` appear.
-/

/-! ### String normalization helpers (char-level model of Python str ops) -/

/-- Python `s.split('/')` on a list of characters. -/
def splitSlash : List Char → List (List Char)
  | [] => [[]]
  | c :: rest =>
    match splitSlash rest with
    | [] => [[c]]
    | h :: t => if c = '/' then [] :: h :: t else (c :: h) :: t

/-- Python `s.strip()`: drop whitespace from both ends. -/
def stripChars (l : List Char) : List Char :=
  ((l.dropWhile Char.isWhitespace).reverse.dropWhile Char.isWhitespace).reverse

/-- Python `s.upper()` on a char list. -/
def upperChars (l : List Char) : List Char := l.map Char.toUpper

/-- Python `s.lower()` on a char list. -/
def lowerChars (l : List Char) : List Char := l.map Char.toLower

/-- `str(raw).strip().upper()` followed by the split-HSG resolution used by
both `parse_soil_group` implementations: if a '/' is present, split on '/'
and take the stripped second component. -/
def resolveSplit (raw : String) : List Char :=
  let sg := upperChars (stripChars raw.data)
  if '/' ∈ sg then
    let parts := splitSlash sg
    if 2 ≤ parts.length then stripChars (parts.getD 1 []) else sg
  else sg

namespace CN

/-- Final validation step of the CN calculator's `parse_soil_group`:
member of {A,B,C,D} returns its lowercase form, anything else defaults
to the most restrictive group `"d"`. -/
def validateGroup (sg : List Char) : String :=
  if sg = ['A'] ∨ sg = ['B'] ∨ sg = ['C'] ∨ sg = ['D'] then
    String.mk (lowerChars sg)
  else "d"

/-- `parse_soil_group` from `composite_cn_calculator.py`. -/
def parse_soil_group (raw : String) : String :=
  validateGroup (resolveSplit raw)

end CN

namespace RationalC

/-- Final validation step of the Rational-C calculator's `parse_soil_group`:
member of {A,B,C,D} returns its lowercase form, anything else is
`none` (unrecognized, e.g. "Water"). -/
def validateGroup (sg : List Char) : Option String :=
  if sg = ['A'] ∨ sg = ['B'] ∨ sg = ['C'] ∨ sg = ['D'] then
    some (String.mk (lowerChars sg))
  else none

/-- `parse_soil_group` from `composite_C_calculator.py`; the leading
`if not soil_group_raw` test maps the empty string to `none`. -/
def parse_soil_group (raw : String) : Option String :=
  if raw = "" then none
  else validateGroup (resolveSplit raw)

end RationalC

/-! ### The area-weighted aggregators -/

/-- One row of the subbasin × land-use × soils intersection. -/
structure IRecord where
  zone : String
  landuse : String
  soil : String
  area : ℚ
  deriving DecidableEq

/-- Per-record valuation of the CN aggregator: normalize the soil group
(with the `'d'` default) and look the (land-use, group) key up in the CN
table; a miss means the record is skipped. -/
def cnValue (lk : String × String → Option ℚ) (r : IRecord) : Option ℚ :=
  lk (r.landuse, CN.parse_soil_group r.soil)

/-- Per-record valuation of the Rational-C aggregator: an unrecognized
soil group bypasses the table and yields the fixed C = 0.95; otherwise
the (land-use, group) key is looked up and a miss skips the record. -/
def ratValue (lk : String × String → Option ℚ) (r : IRecord) : Option ℚ :=
  match RationalC.parse_soil_group r.soil with
  | none => some (19/20)
  | some g => lk (r.landuse, g)

/-- The accumulation loop of `run_calculation`, restricted to one zone:
fold over the records, skipping those whose valuation misses, adding
`area` to the zone's total area and `value * area` to its weighted sum. -/
def zoneTotals (value? : IRecord → Option ℚ) (records : List IRecord)
    (z : String) : ℚ × ℚ :=
  records.foldl
    (fun acc r =>
      match value? r with
      | none => acc
      | some v => if r.zone = z then (acc.1 + r.area, acc.2 + v * r.area) else acc)
    (0, 0)

/-- The matched fragments of zone `z`: `(area, value * area)` for each
record of the zone whose valuation succeeded. -/
def matchedOf (value? : IRecord → Option ℚ) (records : List IRecord)
    (z : String) : List (ℚ × ℚ) :=
  records.filterMap
    (fun r =>
      match value? r with
      | none => none
      | some v => if r.zone = z then some (r.area, v * r.area) else none)

/-- The reported composite for a zone: `weighted_sum / total_area` when the
accumulated area is positive, and `None` otherwise. -/
def composite (value? : IRecord → Option ℚ) (records : List IRecord)
    (z : String) : Option ℚ :=
  let t := zoneTotals value? records z
  if 0 < t.1 then some (t.2 / t.1) else none

/-- Does the record's (land-use, normalized soil group) key match the lookup
table?  Records with an unrecognized soil group have no key at all. -/
def tableMatched (lk : String × String → Option ℚ)
    (norm : String → Option String) (r : IRecord) : Bool :=
  match norm r.soil with
  | none => false
  | some g => (lk (r.landuse, g)).isSome

lemma zoneTotals_go (value? : IRecord → Option ℚ) (records : List IRecord)
    (z : String) (acc : ℚ × ℚ) :
    records.foldl
      (fun acc r =>
        match value? r with
        | none => acc
        | some v => if r.zone = z then (acc.1 + r.area, acc.2 + v * r.area) else acc)
      acc
    = (acc.1 + ((matchedOf value? records z).map Prod.fst).sum,
       acc.2 + ((matchedOf value? records z).map Prod.snd).sum) := by
  induction records generalizing acc with
  | nil => simp [matchedOf]
  | cons r rs ih =>
    rcases h : value? r with _ | v
    · simp only [List.foldl_cons, h]
      rw [ih]
      simp [matchedOf, h]
    · simp only [List.foldl_cons, h]
      by_cases hz : r.zone = z
      · simp only [hz, if_pos rfl]
        rw [ih]
        simp [matchedOf, h, hz, add_assoc, add_comm, add_left_comm]
      · simp only [if_neg hz]
        rw [ih]
        simp [matchedOf, h, hz]

/-- `zoneTotals` is the pair of sums over the matched fragments. -/
lemma zoneTotals_eq (value? : IRecord → Option ℚ) (records : List IRecord)
    (z : String) :
    zoneTotals value? records z
    = (((matchedOf value? records z).map Prod.fst).sum,
       ((matchedOf value? records z).map Prod.snd).sum) := by
  unfold zoneTotals
  rw [zoneTotals_go]
  simp

/-- Permuting the input records permutes the matched fragments. -/
lemma matchedOf_perm (value? : IRecord → Option ℚ)
    {records records' : List IRecord} (h : records.Perm records') (z : String) :
    (matchedOf value? records z).Perm (matchedOf value? records' z) :=
  h.filterMap _

/-- The zone totals are invariant under permutation of the records. -/
lemma zoneTotals_perm (value? : IRecord → Option ℚ)
    {records records' : List IRecord} (h : records.Perm records') (z : String) :
    zoneTotals value? records z = zoneTotals value? records' z := by
  rw [zoneTotals_eq, zoneTotals_eq]
  exact Prod.ext
    (((matchedOf_perm value? h z).map Prod.fst).sum_eq)
    (((matchedOf_perm value? h z).map Prod.snd).sum_eq)

/-- The reported composite is invariant under permutation of the records. -/
lemma composite_perm (value? : IRecord → Option ℚ)
    {records records' : List IRecord} (h : records.Perm records') (z : String) :
    composite value? records z = composite value? records' z := by
  unfold composite
  rw [zoneTotals_perm value? h z]

/-! ### Time-of-concentration engine (`tc_processing.py`) -/

/-- Python `x or d` for an optional float: `None` and `0.0` are falsy and
give the default. -/
def pyOr (x : Option ℚ) (d : ℚ) : ℚ :=
  match x with
  | none => d
  | some v => if v = 0 then d else v

/-- Does Python `if x:` take the branch, for an optional float? -/
def pyTruthy (x : Option ℚ) : Bool :=
  match x with
  | none => false
  | some v => !(v = 0 : Bool)

/-- `self.curve_number and not (lo <= self.curve_number <= hi)`:
the range test that guards each `raise` in `TCParameters.__post_init__`. -/
def badRange (x : Option ℚ) (lo hi : ℚ) : Bool :=
  match x with
  | none => false
  | some v => if v = 0 then false else !(lo ≤ v ∧ v ≤ hi : Bool)

/-- `TCParameters.__post_init__`: validation run at construction.  The
dataclass also carries `roughness_coefficient` (`rough`), which the
validator never examines. -/
def tcparams_post_init (flow_length slope : ℚ) (cn rc rough : Option ℚ) :
    Except String Unit :=
  if flow_length ≤ 0 then Except.error "Flow length must be positive"
  else if slope ≤ 0 then Except.error "Slope must be positive"
  else if badRange cn 30 98 then
    Except.error "Curve number must be between 30 and 98"
  else if badRange rc (1/10) (19/20) then
    Except.error "Runoff coefficient must be between 0.1 and 0.95"
  else Except.ok ()

noncomputable section

/-- `KirpichMethod.calculate`: `TC = 0.0078 L^0.77 / S^0.385`, slope floored
at 0.001 ft/ft, result floored at 5 minutes. -/
def kirpich_calculate (L S : ℚ) : ℝ :=
  let Sc : ℚ := max S (1/1000)
  max (0.0078 * (L:ℝ) ^ (0.77:ℝ) / (Sc:ℝ) ^ (0.385:ℝ)) 5

/-- `FAAMethod.calculate`: `TC = 1.8 (1.1 - C) sqrt(L/1000) / sqrt(S)`,
slope floored at 0.001, `C` defaulted via truthiness then clamped to
[0.1, 0.95], result floored at 5 minutes. -/
def faa_calculate (L : ℚ) (rc : Option ℚ) (S : ℚ) : ℝ :=
  let Sc : ℚ := max S (1/1000)
  let C : ℚ := max (1/10) (min (19/20) (pyOr rc (1/2)))
  max (1.8 * (1.1 - (C:ℝ)) * Real.sqrt ((L:ℝ) / 1000) / Real.sqrt (Sc:ℝ)) 5

/-- `SCSLagTimeMethod.calculate`: slope converted to percent and floored at
0.1, `CN` defaulted via truthiness then clamped to [30, 98],
`lag = L^0.8 (1000/CN - 9)^0.7 / (1900 sqrt(S%))` hours,
`TC = 1.67 * lag * 60` minutes, floored at 5 minutes. -/
def scs_calculate (L : ℚ) (cn : Option ℚ) (S : ℚ) : ℝ :=
  let Sp : ℚ := max (S * 100) (1/10)
  let CN : ℚ := max 30 (min 98 (pyOr cn 70))
  let numerator : ℝ := (L:ℝ) ^ (0.8:ℝ) * (1000 / (CN:ℝ) - 9) ^ (0.7:ℝ)
  let denominator : ℝ := 1900 * Real.sqrt (Sp:ℝ)
  let tlag_hours := numerator / denominator
  max (1.67 * tlag_hours * 60) 5

/-- `KerbyMethod.calculate`: `TC = 1.44 (n L / sqrt S)^0.467`, slope floored
at 0.001, `n` defaulted via truthiness then clamped to [0.02, 0.8],
result floored at 5 minutes. -/
def kerby_calculate (L : ℚ) (rough : Option ℚ) (S : ℚ) : ℝ :=
  let Sc : ℚ := max S (1/1000)
  let n : ℚ := max (2/100) (min (8/10) (pyOr rough (3/10)))
  max (1.44 * (((n:ℝ) * (L:ℝ) / Real.sqrt (Sc:ℝ)) ^ (0.467:ℝ))) 5

/-- The claimed SCS formula of the spec, verbatim: retention
`R = 1000/CN - 9` and `lag = L^0.8 (R+1)^0.7 / (1900 sqrt(S_pct))`,
`TC = 1.67 * lag * 60`. -/
def scs_spec_formula (L CN S : ℚ) : ℝ :=
  let R : ℝ := 1000 / (CN:ℝ) - 9
  1.67 * ((L:ℝ) ^ (0.8:ℝ) * (R + 1) ^ (0.7:ℝ)
      / (1900 * Real.sqrt ((S:ℝ) * 100))) * 60

/-! ### Standalone NRCS TC calculator (`tc_calculator_v6_final.py`) -/

/-- The `tc_minutes` computation of `TCCalculatorWorker.calculate_basin_tc`:
retention `S = 1000/CN - 10`, `lag = L^0.8 (S+1)^0.7 / (1900 slope%^0.5)`
hours, `tc = lag_minutes / 0.6`; 0 when length or slope is nonpositive. -/
def calculate_basin_tc (L CN slopePct : ℚ) : ℝ :=
  let S : ℝ := 1000 / (CN:ℝ) - 10
  if 0 < L ∧ 0 < slopePct then
    let lag_hours : ℝ :=
      (L:ℝ) ^ (0.8:ℝ) * (S + 1) ^ (0.7:ℝ) / (1900 * (slopePct:ℝ) ^ (0.5:ℝ))
    let lag_minutes := lag_hours * 60
    lag_minutes / 0.6
  else 0

/-! ### Comparative statistics (`TCResults.calculate_statistics`) -/

/-- `method_map.get(method)` over the four per-method results. -/
def methodMap (kir faa scs ker : Option ℚ) (m : String) : Option ℚ :=
  if m = "kirpich" then kir
  else if m = "faa" then faa
  else if m = "scs" then scs
  else if m = "kerby" then ker
  else none

/-- The `valid_results` list: selected methods whose TC is present and
positive, in selection order. -/
def validResults (selected : List String) (kir faa scs ker : Option ℚ) :
    List ℚ :=
  selected.filterMap
    (fun m =>
      match methodMap kir faa scs ker m with
      | none => none
      | some tc => if 0 < tc then some tc else none)

/-- `statistics.mean`. -/
def pyMean (xs : List ℚ) : ℚ := xs.sum / xs.length

/-- Insertion into a sorted list, for the sort inside `statistics.median`. -/
def insertSorted (x : ℚ) : List ℚ → List ℚ
  | [] => [x]
  | y :: ys => if x ≤ y then x :: y :: ys else y :: insertSorted x ys

/-- Insertion sort over rationals. -/
def sortQ (xs : List ℚ) : List ℚ := xs.foldr insertSorted []

/-- `statistics.median`: middle element of the sorted data, or the mean of
the two middle elements when the length is even. -/
def pyMedian (xs : List ℚ) : ℚ :=
  let s := sortQ xs
  let n := xs.length
  if n % 2 = 1 then s.getD (n / 2) 0
  else (s.getD (n / 2 - 1) 0 + s.getD (n / 2) 0) / 2

/-- `statistics.stdev`: sample standard deviation, `n - 1` denominator. -/
def pyStdev (xs : List ℚ) : ℝ :=
  Real.sqrt (((xs.map (fun x => ((x:ℝ) - (pyMean xs : ℚ)) ^ 2)).sum)
    / ((xs.length : ℝ) - 1))

/-- `TCResults.calculate_statistics`, returning
`(tc_average_min, tc_std_dev_min, tc_recommended_min)`; the fields start
as `None` and are only assigned when at least one valid result exists. -/
def calculate_statistics (selected : List String)
    (kir faa scs ker : Option ℚ) : Option ℚ × Option ℝ × Option ℚ :=
  let valid := validResults selected kir faa scs ker
  if 2 ≤ valid.length then
    (some (pyMean valid),
     some (if 1 < valid.length then pyStdev valid else 0),
     some (pyMedian valid))
  else if valid.length = 1 then
    (some (valid.headI), some 0, some (valid.headI))
  else (none, none, none)

end

lemma cn_validateGroup_cases (sg : List Char) :
    CN.validateGroup sg = "a" ∨ CN.validateGroup sg = "b"
    ∨ CN.validateGroup sg = "c" ∨ CN.validateGroup sg = "d" := by
  unfold CN.validateGroup
  split
  · rename_i h
    rcases h with h | h | h | h <;> subst h <;> simp [lowerChars]
  · right; right; right; rfl

lemma rat_validateGroup_cases (sg : List Char) :
    RationalC.validateGroup sg = none ∨ RationalC.validateGroup sg = some "a"
    ∨ RationalC.validateGroup sg = some "b" ∨ RationalC.validateGroup sg = some "c"
    ∨ RationalC.validateGroup sg = some "d" := by
  unfold RationalC.validateGroup
  split
  · rename_i h
    rcases h with h | h | h | h <;> subst h <;> simp [lowerChars]
  · left; rfl

lemma cn_parse_idem (raw : String) :
    CN.parse_soil_group (CN.parse_soil_group raw) = CN.parse_soil_group raw := by
  rcases cn_validateGroup_cases (resolveSplit raw) with h | h | h | h <;>
    · have e : CN.parse_soil_group raw = _ := h
      rw [e]
      decide

lemma rat_parse_idem (raw : String) :
    (RationalC.parse_soil_group raw).bind RationalC.parse_soil_group
      = RationalC.parse_soil_group raw := by
  by_cases h0 : raw = ""
  · subst h0
    rw [show RationalC.parse_soil_group "" = none by decide]
    rfl
  · have e : RationalC.parse_soil_group raw
        = RationalC.validateGroup (resolveSplit raw) := by
      unfold RationalC.parse_soil_group
      rw [if_neg h0]
    rcases rat_validateGroup_cases (resolveSplit raw) with h | h | h | h | h <;>
      rw [e, h] <;> decide

lemma rat_parse_none_cn_parse_d (raw : String)
    (h : RationalC.parse_soil_group raw = none) :
    CN.parse_soil_group raw = "d" := by
  by_cases h0 : raw = ""
  · subst h0; decide
  · unfold RationalC.parse_soil_group at h
    rw [if_neg h0] at h
    unfold RationalC.validateGroup at h
    unfold CN.parse_soil_group CN.validateGroup
    by_cases hc : resolveSplit raw = ['A'] ∨ resolveSplit raw = ['B']
        ∨ resolveSplit raw = ['C'] ∨ resolveSplit raw = ['D']
    · rw [if_pos hc] at h
      exact absurd h (by simp)
    · rw [if_neg hc]

/-- C5: the soil-group normalizer resolves split HSGs to the second
component, validates against {A,B,C,D} (`"Water"` is unrecognized), and
the derivation is idempotent; the CN variant (with its `'d'` default) is
idempotent as well. -/
theorem c5_soil_group_normalizer :
    RationalC.parse_soil_group "A/D" = some "d"
    ∧ RationalC.parse_soil_group "B/D" = some "d"
    ∧ RationalC.parse_soil_group "C/D" = some "d"
    ∧ RationalC.parse_soil_group "a" = some "a"
    ∧ RationalC.parse_soil_group "Water" = none
    ∧ (∀ raw : String,
        (RationalC.parse_soil_group raw).bind RationalC.parse_soil_group
          = RationalC.parse_soil_group raw)
    ∧ (∀ raw : String,
        CN.parse_soil_group (CN.parse_soil_group raw) = CN.parse_soil_group raw) :=
  ⟨by decide, by decide, by decide, by decide, by decide,
   rat_parse_idem, cn_parse_idem⟩

/-- C6: on a record whose soil group is unrecognized, the CN aggregator
substitutes `'d'` and still attempts the table lookup, while the
Rational-C aggregator bypasses the table and uses the fixed C = 0.95; the
fragment's area counts toward the zone totals in both cases (for the CN
side, once its `'d'` lookup hits). -/
theorem c6_unrecognized_soil_fallback (lkCN lkC : String × String → Option ℚ)
    (r : IRecord) (v : ℚ)
    (hun : RationalC.parse_soil_group r.soil = none)
    (hhit : lkCN (r.landuse, "d") = some v) :
    CN.parse_soil_group r.soil = "d"
    ∧ cnValue lkCN r = lkCN (r.landuse, "d")
    ∧ ratValue lkC r = some (19/20)
    ∧ zoneTotals (cnValue lkCN) [r] r.zone = (r.area, v * r.area)
    ∧ zoneTotals (ratValue lkC) [r] r.zone = (r.area, (19/20) * r.area) := by
  have hd := rat_parse_none_cn_parse_d r.soil hun
  refine ⟨hd, ?_, ?_, ?_, ?_⟩
  · unfold cnValue
    rw [hd]
  · unfold ratValue
    rw [hun]
  · simp [zoneTotals, cnValue, hd, hhit]
  · simp [zoneTotals, ratValue, hun]

/-- Witness for C6 at a concrete record with soil "Water". -/
theorem c6_witness :
    RationalC.parse_soil_group "Water" = none
    ∧ (fun k => if k = ("res", "d") then some (95:ℚ) else none) ("res", "d")
        = some 95
    ∧ (CN.parse_soil_group "Water" = "d"
      ∧ cnValue (fun k => if k = ("res", "d") then some (95:ℚ) else none)
          ⟨"Z", "res", "Water", 2⟩ = some 95
      ∧ ratValue (fun _ => none) ⟨"Z", "res", "Water", 2⟩ = some (19/20)
      ∧ zoneTotals
          (cnValue (fun k => if k = ("res", "d") then some (95:ℚ) else none))
          [⟨"Z", "res", "Water", 2⟩] "Z" = (2, 95 * 2)
      ∧ zoneTotals (ratValue (fun _ => none)) [⟨"Z", "res", "Water", 2⟩] "Z"
          = (2, (19/20) * 2)) := by
  refine ⟨by decide, by decide, ?_⟩
  have h := c6_unrecognized_soil_fallback
    (fun k => if k = ("res", "d") then some (95:ℚ) else none) (fun _ => none)
    ⟨"Z", "res", "Water", 2⟩ 95 (by decide) (by decide)
  simpa using h

/-- C7: a zone with zero accumulated matched area gets `None`, never 0;
with positive matched area it gets `weighted_sum / total_area` — for both
aggregators. -/
theorem c7_zero_area_null (lkCN lkC : String × String → Option ℚ)
    (records : List IRecord) (z : String) :
    ((zoneTotals (cnValue lkCN) records z).1 = 0 →
        composite (cnValue lkCN) records z = none)
    ∧ (0 < (zoneTotals (cnValue lkCN) records z).1 →
        composite (cnValue lkCN) records z
          = some ((zoneTotals (cnValue lkCN) records z).2
              / (zoneTotals (cnValue lkCN) records z).1))
    ∧ ((zoneTotals (ratValue lkC) records z).1 = 0 →
        composite (ratValue lkC) records z = none)
    ∧ (0 < (zoneTotals (ratValue lkC) records z).1 →
        composite (ratValue lkC) records z
          = some ((zoneTotals (ratValue lkC) records z).2
              / (zoneTotals (ratValue lkC) records z).1)) := by
  refine ⟨fun h => ?_, fun h => ?_, fun h => ?_, fun h => ?_⟩ <;>
    · simp only [composite]
      first
        | rw [if_neg (by rw [h]; exact lt_irrefl 0)]
        | rw [if_pos h]

/-- Witness for C7: the empty batch gives `None` for every zone, and a
single matched record gives the weighted quotient. -/
theorem c7_witness :
    ((zoneTotals (cnValue (fun _ => some 95)) [] "Z").1 = 0
      ∧ composite (cnValue (fun _ => some 95)) [] "Z" = none)
    ∧ (0 < (zoneTotals (cnValue (fun _ => some 95))
          [⟨"Z", "u", "A", 2⟩] "Z").1
      ∧ composite (cnValue (fun _ => some 95)) [⟨"Z", "u", "A", 2⟩] "Z"
          = some ((zoneTotals (cnValue (fun _ => some 95))
              [⟨"Z", "u", "A", 2⟩] "Z").2
            / (zoneTotals (cnValue (fun _ => some 95))
              [⟨"Z", "u", "A", 2⟩] "Z").1)) := by
  constructor
  · exact ⟨rfl, (c7_zero_area_null (fun _ => some 95) (fun _ => some 95) [] "Z").1 rfl⟩
  · have hpos : 0 < (zoneTotals (cnValue (fun _ => some 95))
        [⟨"Z", "u", "A", 2⟩] "Z").1 := by
      simp [zoneTotals, cnValue]
    exact ⟨hpos,
      (c7_zero_area_null (fun _ => some 95) (fun _ => some 95)
        [⟨"Z", "u", "A", 2⟩] "Z").2.1 hpos⟩

/-- C1 (amended): for both aggregators the reported composite for a zone
is the area-weighted mean `sum(value_i * area_i) / sum(area_i)` over the
fragments of that zone whose per-record valuation succeeded (for the CN
aggregator: exactly the table-matched fragments; for the Rational-C
aggregator these also include unrecognized-soil fragments valued at the
fixed 0.95), it is `None` when no area accumulated, and it is invariant
under permutation of the input records. -/
theorem c1_weighted_mean_and_perm (lkCN lkC : String × String → Option ℚ)
    (records records' : List IRecord) (z : String)
    (hperm : records.Perm records') :
    (composite (cnValue lkCN) records z
      = if 0 < ((matchedOf (cnValue lkCN) records z).map Prod.fst).sum
        then some (((matchedOf (cnValue lkCN) records z).map Prod.snd).sum
            / ((matchedOf (cnValue lkCN) records z).map Prod.fst).sum)
        else none)
    ∧ (composite (ratValue lkC) records z
      = if 0 < ((matchedOf (ratValue lkC) records z).map Prod.fst).sum
        then some (((matchedOf (ratValue lkC) records z).map Prod.snd).sum
            / ((matchedOf (ratValue lkC) records z).map Prod.fst).sum)
        else none)
    ∧ composite (cnValue lkCN) records z = composite (cnValue lkCN) records' z
    ∧ composite (ratValue lkC) records z = composite (ratValue lkC) records' z := by
  refine ⟨?_, ?_, composite_perm _ hperm z, composite_perm _ hperm z⟩ <;>
    · simp only [composite, zoneTotals_eq]

/-- Witness for C1 at a concrete two-record batch and its transposition. -/
theorem c1_witness :
    ([(⟨"Z", "u", "A", 2⟩ : IRecord), ⟨"Z", "u", "B", 6⟩].Perm
        [⟨"Z", "u", "B", 6⟩, ⟨"Z", "u", "A", 2⟩])
    ∧ (composite (cnValue (fun _ => some 95))
          [⟨"Z", "u", "A", 2⟩, ⟨"Z", "u", "B", 6⟩] "Z"
        = if 0 < ((matchedOf (cnValue (fun _ => some 95))
              [⟨"Z", "u", "A", 2⟩, ⟨"Z", "u", "B", 6⟩] "Z").map Prod.fst).sum
          then some (((matchedOf (cnValue (fun _ => some 95))
                [⟨"Z", "u", "A", 2⟩, ⟨"Z", "u", "B", 6⟩] "Z").map Prod.snd).sum
              / ((matchedOf (cnValue (fun _ => some 95))
                [⟨"Z", "u", "A", 2⟩, ⟨"Z", "u", "B", 6⟩] "Z").map Prod.fst).sum)
          else none)
    ∧ composite (cnValue (fun _ => some 95))
          [⟨"Z", "u", "A", 2⟩, ⟨"Z", "u", "B", 6⟩] "Z"
        = composite (cnValue (fun _ => some 95))
          [⟨"Z", "u", "B", 6⟩, ⟨"Z", "u", "A", 2⟩] "Z" := by
  have hperm : ([(⟨"Z", "u", "A", 2⟩ : IRecord), ⟨"Z", "u", "B", 6⟩].Perm
      [⟨"Z", "u", "B", 6⟩, ⟨"Z", "u", "A", 2⟩]) :=
    List.Perm.swap _ _ _
  have h := c1_weighted_mean_and_perm (fun _ => some 95) (fun _ => some 95)
    [⟨"Z", "u", "A", 2⟩, ⟨"Z", "u", "B", 6⟩]
    [⟨"Z", "u", "B", 6⟩, ⟨"Z", "u", "A", 2⟩] "Z" hperm
  exact ⟨hperm, h.1, h.2.2.1⟩

/-- C1 counterexample: with an empty lookup table, the Rational-C
aggregator still reports composite 0.95 for a zone whose sole record has
the unrecognized soil group "Water", although no record's
(land-use, soil-group) key matched the table — the claim's
"sum over exactly the table-matched fragments" would have no data. -/
theorem c1_counterexample :
    composite (ratValue (fun _ => none)) [⟨"Z1", "meadow", "Water", 2⟩] "Z1"
      = some (19/20)
    ∧ [(⟨"Z1", "meadow", "Water", 2⟩ : IRecord)].filter
        (tableMatched (fun _ => none) RationalC.parse_soil_group) = [] := by
  constructor
  · have h : RationalC.parse_soil_group "Water" = none := by decide
    simp [composite, zoneTotals, ratValue, h]
  · decide

/-- C8: every method floors the slope before exponentiation — the three
ft/ft methods at 0.001, and the SCS method at 0.1 percent, which is the
same floor expressed in percent (`max(S*100, 0.1) = 100 * max(S, 0.001)`);
consequently slope 0 is processed exactly like slope 0.001 and the
denominators are positive, so no division-by-zero or negative-root can
occur. -/
theorem c8_slope_floor (L S : ℚ) (cn rc rough : Option ℚ) :
    (1/1000 : ℚ) ≤ max S (1/1000)
    ∧ max (S * 100) (1/10) = 100 * max S (1/1000)
    ∧ (0:ℝ) < ((max S (1/1000) : ℚ) : ℝ) ^ (0.385:ℝ)
    ∧ (0:ℝ) < 1900 * Real.sqrt ((max (S * 100) (1/10) : ℚ) : ℝ)
    ∧ kirpich_calculate L 0 = kirpich_calculate L (1/1000)
    ∧ faa_calculate L rc 0 = faa_calculate L rc (1/1000)
    ∧ scs_calculate L cn 0 = scs_calculate L cn (1/1000)
    ∧ kerby_calculate L rough 0 = kerby_calculate L rough (1/1000) := by
  have hSpos : (0:ℚ) < max S (1/1000) :=
    lt_of_lt_of_le (by norm_num) (le_max_right _ _)
  have hSppos : (0:ℚ) < max (S * 100) (1/10) :=
    lt_of_lt_of_le (by norm_num) (le_max_right _ _)
  refine ⟨le_max_right _ _, ?_, ?_, ?_, ?_, ?_, ?_, ?_⟩
  · rcases le_total S (1/1000) with h | h
    · rw [max_eq_right h, max_eq_right (by linarith)]
      norm_num
    · rw [max_eq_left h, max_eq_left (by linarith)]
      ring
  · exact Real.rpow_pos_of_pos (by exact_mod_cast hSpos) _
  · positivity
  · unfold kirpich_calculate
    rw [show max (0:ℚ) (1/1000) = 1/1000 from max_eq_right (by norm_num),
      show max ((1:ℚ)/1000) (1/1000) = 1/1000 from max_self _]
  · unfold faa_calculate
    rw [show max (0:ℚ) (1/1000) = 1/1000 from max_eq_right (by norm_num),
      show max ((1:ℚ)/1000) (1/1000) = 1/1000 from max_self _]
  · unfold scs_calculate
    rw [show max ((0:ℚ) * 100) (1/10) = 1/10 from max_eq_right (by norm_num),
      show max ((1:ℚ)/1000 * 100) (1/10) = 1/10 from max_eq_right (by norm_num)]
  · unfold kerby_calculate
    rw [show max (0:ℚ) (1/1000) = 1/1000 from max_eq_right (by norm_num),
      show max ((1:ℚ)/1000) (1/1000) = 1/1000 from max_self _]

/-- C9 (amended): `TCParameters.__post_init__` raises exactly when
flow length or slope is nonpositive, or when a *truthy* (non-null,
nonzero) curve number or runoff coefficient is out of its range; a
zero optional value slips through the truthiness test, and
`roughness_coefficient` is never validated at all. -/
theorem c9_post_init_characterization (flow slope : ℚ)
    (cn rc rough rough' : Option ℚ) :
    (tcparams_post_init flow slope cn rc rough = Except.ok () ↔
      0 < flow ∧ 0 < slope
      ∧ (∀ v, cn = some v → v ≠ 0 → 30 ≤ v ∧ v ≤ 98)
      ∧ (∀ v, rc = some v → v ≠ 0 → 1/10 ≤ v ∧ v ≤ 19/20))
    ∧ tcparams_post_init flow slope cn rc rough
        = tcparams_post_init flow slope cn rc rough' := by
  constructor
  · unfold tcparams_post_init
    constructor
    · intro h
      by_cases h1 : flow ≤ 0
      · rw [if_pos h1] at h; cases h
      rw [if_neg h1] at h
      by_cases h2 : slope ≤ 0
      · rw [if_pos h2] at h; cases h
      rw [if_neg h2] at h
      by_cases h3 : badRange cn 30 98
      · rw [if_pos h3] at h; cases h
      rw [if_neg h3] at h
      by_cases h4 : badRange rc (1/10) (19/20)
      · rw [if_pos h4] at h; cases h
      refine ⟨by linarith [lt_of_not_le h1], by linarith [lt_of_not_le h2], ?_, ?_⟩
      · intro v hv hv0
        subst hv
        simp only [badRange, Bool.not_eq_true] at h3
        rw [if_neg hv0] at h3
        simpa using h3
      · intro v hv hv0
        subst hv
        simp only [badRange, Bool.not_eq_true] at h4
        rw [if_neg hv0] at h4
        simpa using h4
    · rintro ⟨h1, h2, h3, h4⟩
      rw [if_neg (by linarith), if_neg (by linarith)]
      have hb3 : badRange cn 30 98 = false := by
        rcases cn with _ | v
        · rfl
        · simp only [badRange]
          by_cases hv0 : v = 0
          · rw [if_pos hv0]
          · rw [if_neg hv0]
            simpa using h3 v rfl hv0
      have hb4 : badRange rc (1/10) (19/20) = false := by
        rcases rc with _ | v
        · rfl
        · simp only [badRange]
          by_cases hv0 : v = 0
          · rw [if_pos hv0]
          · rw [if_neg hv0]
            simpa using h4 v rfl hv0
      rw [hb3, hb4]
      simp
  · rfl

/-- C9 counterexample: `curve_number = 0` is supplied and outside
[30, 98], and `roughness_coefficient = 5` is supplied and outside
[0.02, 0.8], yet construction succeeds — the claimed
"raises iff an out-of-range optional parameter is supplied" is false. -/
theorem c9_counterexample :
    tcparams_post_init 100 1 (some 0) none (some 5) = Except.ok ()
    ∧ ¬(30 ≤ (0:ℚ) ∧ (0:ℚ) ≤ 98)
    ∧ ¬(2/100 ≤ (5:ℚ) ∧ (5:ℚ) ≤ 8/10) := by
  refine ⟨?_, by norm_num, by norm_num⟩
  unfold tcparams_post_init badRange
  norm_num

/-- Witness for C9 at concrete inputs. -/
theorem c9_witness :
    tcparams_post_init 100 1 (some 50) (some (1/2)) none = Except.ok () := by
  have h := (c9_post_init_characterization 100 1 (some 50) (some (1/2))
    none none).1.mpr
  refine h ⟨by norm_num, by norm_num, ?_, ?_⟩
  · rintro v hv -
    cases hv
    norm_num
  · rintro v hv -
    cases hv
    norm_num

/-- C10: a zero (or absent) optional parameter passes validation because
Python truthiness short-circuits the range check, and each method formula
then substitutes its built-in default (CN 70, C 0.5, n 0.3) before
clamping and computing. -/
theorem c10_zero_optionals_use_defaults (flow slope : ℚ)
    (h1 : 0 < flow) (h2 : 0 < slope) :
    tcparams_post_init flow slope (some 0) (some 0) (some 0) = Except.ok ()
    ∧ tcparams_post_init flow slope none none none = Except.ok ()
    ∧ (∀ L S : ℚ,
        scs_calculate L (some 0) S = scs_calculate L (some 70) S
        ∧ scs_calculate L none S = scs_calculate L (some 70) S
        ∧ faa_calculate L (some 0) S = faa_calculate L (some (1/2)) S
        ∧ faa_calculate L none S = faa_calculate L (some (1/2)) S
        ∧ kerby_calculate L (some 0) S = kerby_calculate L (some (3/10)) S
        ∧ kerby_calculate L none S = kerby_calculate L (some (3/10)) S) := by
  have hok : ∀ x y : Option ℚ, badRange x 30 98 = false →
      badRange y (1/10) (19/20) = false →
      tcparams_post_init flow slope x y (some 0) = Except.ok () := by
    intro x y hx hy
    unfold tcparams_post_init
    rw [if_neg (by linarith), if_neg (by linarith), hx, hy]
    simp
  refine ⟨?_, ?_, ?_⟩
  · unfold tcparams_post_init badRange
    rw [if_neg (by linarith), if_neg (by linarith)]
    norm_num
  · unfold tcparams_post_init badRange
    rw [if_neg (by linarith), if_neg (by linarith)]
    norm_num
  · intro L S
    have e1 : pyOr (some 0) 70 = pyOr (some 70) 70 := by norm_num [pyOr]
    have e2 : pyOr none 70 = pyOr (some 70) 70 := by norm_num [pyOr]
    have e3 : pyOr (some 0) (1/2) = pyOr (some (1/2)) (1/2) := by
      norm_num [pyOr]
    have e4 : pyOr none (1/2) = pyOr (some (1/2)) (1/2) := by norm_num [pyOr]
    have e5 : pyOr (some 0) (3/10) = pyOr (some (3/10)) (3/10) := by
      norm_num [pyOr]
    have e6 : pyOr none (3/10) = pyOr (some (3/10)) (3/10) := by
      norm_num [pyOr]
    refine ⟨?_, ?_, ?_, ?_, ?_, ?_⟩ <;>
      simp only [scs_calculate, faa_calculate, kerby_calculate,
        e1, e2, e3, e4, e5, e6]

/-- Witness for C10 at flow 1, slope 1. -/
theorem c10_witness :
    (0:ℚ) < 1
    ∧ tcparams_post_init 1 1 (some 0) (some 0) (some 0) = Except.ok ()
    ∧ scs_calculate 100 (some 0) 1 = scs_calculate 100 (some 70) 1 := by
  have h := c10_zero_optionals_use_defaults 1 1 (by norm_num) (by norm_num)
  exact ⟨by norm_num, h.1, (h.2.2 100 1).1⟩

lemma valid_concrete :
    validResults ["kirpich", "faa", "scs", "kerby"]
      (some 10) (some 20) (some 30) none = [10, 20, 30] := by
  decide

lemma valid_single :
    validResults ["kirpich", "faa", "scs", "kerby"]
      (some 15) none none none = [15] := by
  decide

lemma pyMean_concrete : pyMean [10, 20, 30] = 20 := by norm_num [pyMean]

lemma pyMedian_concrete : pyMedian [10, 20, 30] = 20 := by
  norm_num [pyMedian, sortQ, insertSorted]

lemma pyStdev_concrete : pyStdev [10, 20, 30] = 10 := by
  unfold pyStdev
  rw [pyMean_concrete]
  norm_num
  rw [show (100:ℝ) = 10 ^ 2 by norm_num,
    Real.sqrt_sq (by norm_num : (0:ℝ) ≤ 10)]

/-- C4: with two or more valid per-method TC values the statistics are
(arithmetic mean, sample standard deviation with n-1 denominator, median);
with exactly one value v they are (v, 0, v); with none they stay `None`;
in particular [10, 20, 30] gives (20, 10, 20) and [15] gives (15, 0, 15). -/
theorem c4_comparative_statistics :
    (∀ (sel : List String) (k f s kr : Option ℚ),
        2 ≤ (validResults sel k f s kr).length →
        calculate_statistics sel k f s kr
          = (some (pyMean (validResults sel k f s kr)),
             some (pyStdev (validResults sel k f s kr)),
             some (pyMedian (validResults sel k f s kr))))
    ∧ (∀ (sel : List String) (k f s kr : Option ℚ),
        (validResults sel k f s kr).length = 1 →
        calculate_statistics sel k f s kr
          = (some ((validResults sel k f s kr).headI), some 0,
             some ((validResults sel k f s kr).headI)))
    ∧ (∀ (sel : List String) (k f s kr : Option ℚ),
        (validResults sel k f s kr).length = 0 →
        calculate_statistics sel k f s kr = (none, none, none))
    ∧ calculate_statistics ["kirpich", "faa", "scs", "kerby"]
        (some 10) (some 20) (some 30) none = (some 20, some 10, some 20)
    ∧ calculate_statistics ["kirpich", "faa", "scs", "kerby"]
        (some 15) none none none = (some 15, some 0, some 15) := by
  refine ⟨?_, ?_, ?_, ?_, ?_⟩
  · intro sel k f s kr h
    simp only [calculate_statistics]
    rw [if_pos h, if_pos (by omega)]
  · intro sel k f s kr h
    simp only [calculate_statistics]
    rw [if_neg (by omega), if_pos h]
  · intro sel k f s kr h
    simp only [calculate_statistics]
    rw [if_neg (by omega), if_neg (by omega)]
  · simp only [calculate_statistics, valid_concrete]
    norm_num [pyMean_concrete, pyStdev_concrete, pyMedian_concrete]
  · simp only [calculate_statistics, valid_single]
    norm_num

/-- Witness for C4 at the concrete batch [10, 20, 30]. -/
theorem c4_witness :
    2 ≤ (validResults ["kirpich", "faa", "scs", "kerby"]
        (some 10) (some 20) (some 30) none).length
    ∧ calculate_statistics ["kirpich", "faa", "scs", "kerby"]
        (some 10) (some 20) (some 30) none
      = (some (pyMean (validResults ["kirpich", "faa", "scs", "kerby"]
            (some 10) (some 20) (some 30) none)),
         some (pyStdev (validResults ["kirpich", "faa", "scs", "kerby"]
            (some 10) (some 20) (some 30) none)),
         some (pyMedian (validResults ["kirpich", "faa", "scs", "kerby"]
            (some 10) (some 20) (some 30) none))) :=
  ⟨by decide,
   c4_comparative_statistics.1 ["kirpich", "faa", "scs", "kerby"]
     (some 10) (some 20) (some 30) none (by decide)⟩

lemma rpow_hundredk : (100000:ℝ) ^ (0.8:ℝ) = 10000 := by
  have h10 : (0:ℝ) ≤ 10 := by norm_num
  have h1 : (100000:ℝ) = (10:ℝ) ^ (5:ℝ) := by
    rw [show (5:ℝ) = ((5:ℕ):ℝ) by norm_num, Real.rpow_natCast]
    norm_num
  rw [h1, ← Real.rpow_mul h10]
  rw [show (5:ℝ) * 0.8 = ((4:ℕ):ℝ) by norm_num, Real.rpow_natCast]
  norm_num

lemma one_le_rpow_eleven : 1 ≤ (11:ℝ) ^ (0.7:ℝ) := by
  calc (1:ℝ) = (11:ℝ) ^ (0:ℝ) := (Real.rpow_zero _).symm
  _ ≤ (11:ℝ) ^ (0.7:ℝ) :=
      Real.rpow_le_rpow_of_exponent_le (by norm_num) (by norm_num)

lemma rpow_eleven_lt_twelve : (11:ℝ) ^ (0.7:ℝ) < (12:ℝ) ^ (0.7:ℝ) :=
  Real.rpow_lt_rpow (by norm_num) (by norm_num) (by norm_num)

lemma scs_calculate_concrete :
    scs_calculate 100000 (some 50) (1/100)
      = 1.67 * (10000 * (11:ℝ) ^ (0.7:ℝ) / 1900) * 60 := by
  have hSp : max ((1/100:ℚ) * 100) (1/10) = 1 := by
    rw [show ((1/100:ℚ) * 100) = 1 by norm_num]
    exact max_eq_left (by norm_num)
  have hCN : max (30:ℚ) (min 98 (pyOr (some 50) 70)) = 50 := by
    rw [show pyOr (some 50) 70 = 50 by norm_num [pyOr],
      min_eq_right (by norm_num : (50:ℚ) ≤ 98)]
    exact max_eq_right (by norm_num)
  simp only [scs_calculate, hSp, hCN]
  push_cast
  rw [Real.sqrt_one, rpow_hundredk]
  rw [show (1000:ℝ) / 50 - 9 = 11 by norm_num]
  rw [max_eq_left]
  · nlinarith [one_le_rpow_eleven]
  · nlinarith [one_le_rpow_eleven]

lemma scs_spec_formula_concrete :
    scs_spec_formula 100000 50 (1/100)
      = 1.67 * (10000 * (12:ℝ) ^ (0.7:ℝ) / 1900) * 60 := by
  simp only [scs_spec_formula]
  push_cast
  rw [rpow_hundredk, show (1/100:ℝ) * 100 = 1 by norm_num, Real.sqrt_one,
    show (1000:ℝ) / 50 - 9 + 1 = 12 by norm_num]
  ring

/-- C2 counterexample: at L = 100000 ft, CN = 50, slope 0.01 ft/ft, the
code's SCS result differs from the spec's formula, whose retention term
`(R+1)` with `R = 1000/CN - 9` is one unit larger than the code's
`1000/CN - 9` numerator base. -/
theorem c2_counterexample :
    scs_calculate 100000 (some 50) (1/100) ≠ scs_spec_formula 100000 50 (1/100) := by
  rw [scs_calculate_concrete, scs_spec_formula_concrete]
  intro h
  nlinarith [rpow_eleven_lt_twelve]

/-- C2 (amended): with CN in [30, 98] and slope percent at least the 0.1
floor, the SCS method computes
`TC = max(1.67 * lag * 60, 5)` minutes with
`lag = L^0.8 * (R+1)^0.7 / (1900 * sqrt(S_pct))` hours and retention
`R = 1000/CN - 10` (so the numerator base is `1000/CN - 9`). -/
theorem c2_amended_scs_formula (L CN S : ℚ) (h30 : 30 ≤ CN) (h98 : CN ≤ 98)
    (hS : (1:ℚ)/10 ≤ S * 100) :
    scs_calculate L (some CN) S
      = max (1.67 * ((L:ℝ) ^ (0.8:ℝ)
            * ((1000 / (CN:ℝ) - 10) + 1) ^ (0.7:ℝ)
            / (1900 * Real.sqrt ((S:ℝ) * 100))) * 60) 5 := by
  have hCN0 : ¬(CN = 0) := by intro h; rw [h] at h30; norm_num at h30
  have hCN : max (30:ℚ) (min 98 (pyOr (some CN) 70)) = CN := by
    simp only [pyOr]
    rw [if_neg hCN0, min_eq_right h98, max_eq_right h30]
  have hSp : max (S * 100) (1/10 : ℚ) = S * 100 := max_eq_left hS
  simp only [scs_calculate, hCN, hSp]
  push_cast
  rw [show (1000:ℝ) / (CN:ℝ) - 10 + 1 = 1000 / (CN:ℝ) - 9 by ring]

/-- Witness for C2 at L = 100, CN = 50, S = 0.01. -/
theorem c2_witness :
    (30:ℚ) ≤ 50 ∧ (50:ℚ) ≤ 98 ∧ (1:ℚ)/10 ≤ (1/100) * 100
    ∧ scs_calculate 100 (some 50) (1/100)
      = max (1.67 * (((100:ℚ):ℝ) ^ (0.8:ℝ)
            * ((1000 / ((50:ℚ):ℝ) - 10) + 1) ^ (0.7:ℝ)
            / (1900 * Real.sqrt (((1/100:ℚ):ℝ) * 100))) * 60) 5 :=
  ⟨by norm_num, by norm_num, by norm_num,
   c2_amended_scs_formula 100 50 (1/100) (by norm_num) (by norm_num)
     (by norm_num)⟩

lemma basin_tc_concrete :
    calculate_basin_tc 100000 50 1
      = 10000 * (11:ℝ) ^ (0.7:ℝ) / 1900 * 60 / 0.6 := by
  simp only [calculate_basin_tc]
  rw [if_pos (by norm_num : (0:ℚ) < 100000 ∧ (0:ℚ) < 1)]
  push_cast
  rw [rpow_hundredk, Real.one_rpow,
    show (1000:ℝ) / 50 - 10 + 1 = 11 by norm_num]
  ring

/-- C3 counterexample: at identical inputs (L = 100000 ft, CN = 50, slope
1 percent = 0.01 ft/ft) the multi-method engine's SCS TC (factor 1.67)
and the standalone calculator's TC (division by 0.6) differ: 1.67 is not
equal to 1/0.6 = 5/3. -/
theorem c3_counterexample :
    scs_calculate 100000 (some 50) (1/100) ≠ calculate_basin_tc 100000 50 1 := by
  rw [scs_calculate_concrete, basin_tc_concrete]
  intro h
  norm_num at h
  nlinarith [one_le_rpow_eleven]

/-- C3 (amended): on the clamp-free domain the two implementations agree
only up to the constant ratio `1.67 * 0.6 = 1.002`: the engine's SCS TC is
`max(1.002 * standalone_tc, 5)`, not the standalone value itself. -/
theorem c3_amended_ratio (L CN Spct : ℚ) (h30 : 30 ≤ CN) (h98 : CN ≤ 98)
    (hSp : (1:ℚ)/10 ≤ Spct) (hL : 0 < L) :
    scs_calculate L (some CN) (Spct / 100)
      = max (1.002 * calculate_basin_tc L CN Spct) 5 := by
  have hCN0 : ¬(CN = 0) := by intro h; rw [h] at h30; norm_num at h30
  have hCN : max (30:ℚ) (min 98 (pyOr (some CN) 70)) = CN := by
    simp only [pyOr]
    rw [if_neg hCN0, min_eq_right h98, max_eq_right h30]
  have hdiv : (Spct / 100 * 100 : ℚ) = Spct :=
    div_mul_cancel₀ Spct (by norm_num : (100:ℚ) ≠ 0)
  have hSpm : max (Spct / 100 * 100) (1/10 : ℚ) = Spct := by
    rw [hdiv]
    exact max_eq_left hSp
  simp only [scs_calculate, calculate_basin_tc, hCN, hSpm]
  rw [if_pos ⟨hL, by linarith⟩]
  rw [Real.sqrt_eq_rpow, show (1000:ℝ) / (CN:ℝ) - 10 + 1 = 1000 / (CN:ℝ) - 9 by ring,
    show ((0.5):ℝ) = 1 / 2 by norm_num]
  congr 1
  ring

/-- Witness for C3 at L = 100000, CN = 50, slope 1 percent. -/
theorem c3_witness :
    (30:ℚ) ≤ 50 ∧ (50:ℚ) ≤ 98 ∧ (1:ℚ)/10 ≤ 1 ∧ (0:ℚ) < 100000
    ∧ scs_calculate 100000 (some 50) ((1:ℚ) / 100)
      = max (1.002 * calculate_basin_tc 100000 50 1) 5 :=
  ⟨by norm_num, by norm_num, by norm_num, by norm_num,
   c3_amended_ratio 100000 50 1 (by norm_num) (by norm_num) (by norm_num)
     (by norm_num)⟩
